import Mathlib

/-!
Verification development for the Gerch search/chat backend
(`backend/server.py` and `backend/api_clients.py`).

The Python code is shallowly embedded: every provider call (HTTP, LLM, ...)
is abstracted as a field of an `Env` record holding the result the provider
would return for this request (`Option _`, with `none` for a failed / absent
call, mirroring the clients' "never raise, return None" contract).  All
request handling is then a pure function of the message and the `Env`.

Python numbers are modelled by `Frac`, exact integer fractions (numerator /
denominator) without normalisation; this keeps every arithmetic step
kernel-computable.  Float rounding is outside the model: Python's binary
floats are approximated by the exact rational values, and decimal display
formatting is approximated where it occurs (commented at each site).
-/

/-! ## Exact fractions standing in for Python numbers -/

/-- An exact integer fraction `num / den`.  All Python `int` and `float`
values handled by the server are represented this way (`int n` as `n / 1`).
No normalisation is performed; all inputs appearing in the claims keep
denominator 1, so structural equality coincides with value equality there. -/
structure Frac where
  num : Int
  den : Int
deriving DecidableEq

instance (n : Nat) : OfNat Frac n := ⟨⟨n, 1⟩⟩

instance : Neg Frac := ⟨fun a => ⟨-a.num, a.den⟩⟩

/-- Decimal literals such as `40.7128` (used for the city coordinates). -/
instance : OfScientific Frac :=
  ⟨fun m s e => if s then ⟨(m : Int), (10 : Int) ^ e⟩ else ⟨(m : Int) * (10 : Int) ^ e, 1⟩⟩

def fadd (a b : Frac) : Frac := ⟨a.num * b.den + b.num * a.den, a.den * b.den⟩

def fsub (a b : Frac) : Frac := ⟨a.num * b.den - b.num * a.den, a.den * b.den⟩

def fmul (a b : Frac) : Frac := ⟨a.num * b.num, a.den * b.den⟩

def fdiv (a b : Frac) : Frac := ⟨a.num * b.den, a.den * b.num⟩

/-- Value test against zero (denominators are never zero on the values the
server computes with). -/
def fIsZero (a : Frac) : Bool := a.num == 0

def fpowNat (a : Frac) : Nat → Frac
  | 0 => ⟨1, 1⟩
  | n + 1 => fmul a (fpowNat a n)

/-- Python `round(x)`-style rounding to the nearest integer (half away from
zero rounds up here; Python uses banker's rounding - the difference is
invisible to every claim, as this is only used for display formatting). -/
def fRound (a : Frac) : Int :=
  if a.den = 0 then 0 else Int.fdiv (2 * a.num + a.den) (2 * a.den)

def fOfInt (n : Int) : Frac := ⟨n, 1⟩

/-! ## Character/string helpers mirroring the Python string primitives -/

/-- ASCII lower-casing of one character, as `str.lower` does on ASCII text. -/
def lowerChar (c : Char) : Char :=
  if 'A' ≤ c && c ≤ 'Z' then Char.ofNat (c.toNat + 32) else c

/-- ASCII upper-casing of one character, as `str.upper` does on ASCII text. -/
def upperChar (c : Char) : Char :=
  if 'a' ≤ c && c ≤ 'z' then Char.ofNat (c.toNat - 32) else c

/-- `str.lower` (ASCII fragment; the trigger keywords are all ASCII). -/
def lowerStr (s : String) : String := ⟨s.data.map lowerChar⟩

/-- `str.capitalize`: first character upper-cased, the rest lower-cased. -/
def capitalizeStr (s : String) : String :=
  match s.data with
  | [] => ""
  | c :: cs => ⟨upperChar c :: cs.map lowerChar⟩

/-- The whitespace class stripped by `str.strip` / skipped by `str.split`
(ASCII whitespace, which also covers `\s` of the calculator regex on the
inputs admitted by its character class). -/
def isWS (c : Char) : Bool :=
  c == ' ' || c == '\t' || c == '\n' || c == '\r' || c == '\x0b' || c == '\x0c'

def trimCL (l : List Char) : List Char :=
  ((l.dropWhile isWS).reverse.dropWhile isWS).reverse

/-- `str.strip()`. -/
def trimS (s : String) : String := ⟨trimCL s.data⟩

def isPrefixCL : List Char → List Char → Bool
  | [], _ => true
  | _ :: _, [] => false
  | a :: as, b :: bs => a == b && isPrefixCL as bs

def isInfixCL (pat : List Char) : List Char → Bool
  | [] => pat.isEmpty
  | c :: rest => isPrefixCL pat (c :: rest) || isInfixCL pat rest

/-- Python's `needle in haystack` substring test. -/
def containsSub (needle haystack : String) : Bool :=
  isInfixCL needle.data haystack.data

/-- `str.startswith`. -/
def startsWithS (s pre : String) : Bool := isPrefixCL pre.data s.data

/-- Worker for `replaceCL`; the fuel is the input length, which always
suffices because each step consumes at least one character. -/
def replaceGo (pat rep : List Char) : Nat → List Char → List Char
  | 0, l => l
  | _ + 1, [] => []
  | fuel + 1, c :: cs =>
    if pat.isEmpty then c :: replaceGo pat rep fuel cs
    else if isPrefixCL pat (c :: cs) then
      rep ++ replaceGo pat rep fuel (List.drop (pat.length - 1) cs)
    else c :: replaceGo pat rep fuel cs

/-- Leftmost, non-overlapping replace-all on char lists (`str.replace`).
The degenerate empty pattern (never used by the server) is left as the
identity rather than Python's insert-everywhere behaviour. -/
def replaceCL (pat rep l : List Char) : List Char := replaceGo pat rep l.length l

/-- `str.replace(pat, rep)`. -/
def replaceS (s pat rep : String) : String := ⟨replaceCL pat.data rep.data s.data⟩

/-- Worker for `str.split()`: accumulates the current (reversed) word. -/
def splitWSGo (cur : List Char) : List Char → List (List Char)
  | [] => if cur.isEmpty then [] else [cur.reverse]
  | c :: cs =>
    if isWS c then
      if cur.isEmpty then splitWSGo [] cs else cur.reverse :: splitWSGo [] cs
    else splitWSGo (c :: cur) cs

/-- `message.split()` as a list of words (whitespace runs separate words,
empty items dropped). -/
def wordsOf (s : String) : List String := (splitWSGo [] s.data).map (fun l => ⟨l⟩)

/-- First `n` characters, Python's `s[:n]`. -/
def takeStr (n : Nat) (s : String) : String := ⟨s.data.take n⟩

/-! ## Calculator (`CalculatorService`, server.py lines 91-138) -/

/-- The character-class allow-list of `valid_pattern = r'^[\d+\-*/().\s]+$'`.
Note: the caret `^` power character is NOT in the class. -/
def isCalcChar (c : Char) : Bool :=
  c.isDigit || c == '+' || c == '-' || c == '*' || c == '/' ||
    c == '(' || c == ')' || c == '.' || isWS c

/-- `is_valid_expression`: the whole (non-empty) string must match the
character class. -/
def is_valid_expression (s : String) : Bool :=
  !s.data.isEmpty && s.data.all isCalcChar

/-- Binary operator kinds producible by parsing text in the allowed character
class.  `floordiv` (`//`) parses in Python but has no entry in
`CalculatorService.OPERATORS`, so evaluating it raises `KeyError`. -/
inductive BinOpK where
  | add | sub | mul | div | pow | floordiv
deriving DecidableEq

inductive UnOpK where
  | neg | pos
deriving DecidableEq

/-- The arithmetic expression tree (`ast.parse(..., mode='eval')` restricted
to the node shapes reachable from the allowed character class). -/
inductive Expr where
  | num (v : Frac)
  | binop (op : BinOpK) (l r : Expr)
  | unop (op : UnOpK) (e : Expr)
deriving DecidableEq

inductive Tok where
  | num (v : Frac)
  | plus | minus | star | slash | dstar | dslash | lpar | rpar
deriving DecidableEq

def digitsToNat (l : List Char) : Nat :=
  l.foldl (fun a c => a * 10 + (c.toNat - 48)) 0

def numTokChar (c : Char) : Bool := c.isDigit || c == '.'

/-- Splits the leading run of number characters (digits and dots) from the
rest of the input. -/
def spanNum : List Char → List Char × List Char
  | [] => ([], [])
  | c :: cs =>
    if numTokChar c then (c :: (spanNum cs).1, (spanNum cs).2)
    else ([], c :: cs)

/-- Value of a numeric literal (digits with at most one dot), as `Frac`. -/
def numVal (l : List Char) : Except String Frac :=
  let ip := l.takeWhile (fun c => c.isDigit)
  let rest := l.drop ip.length
  match rest with
  | [] => if ip.isEmpty then .error "invalid number" else .ok (fOfInt (digitsToNat ip))
  | '.' :: fp =>
    if fp.all (fun c => c.isDigit) then
      if ip.isEmpty && fp.isEmpty then .error "invalid number"
      else .ok (fadd (fOfInt (digitsToNat ip))
        (fdiv (fOfInt (digitsToNat fp)) (fpowNat ⟨10, 1⟩ fp.length)))
    else .error "invalid number"
  | _ => .error "invalid number"

/-- Worker for `tokenize`; the fuel is the input length, which always
suffices because each step consumes at least one character. -/
def tokenizeGo : Nat → List Char → Except String (List Tok)
  | 0, _ => .ok []
  | fuel + 1, l =>
    match l with
    | [] => .ok []
    | c :: cs =>
      if isWS c then tokenizeGo fuel cs
      else if numTokChar c then
        match numVal (c :: (spanNum cs).1) with
        | .error e => .error e
        | .ok v =>
          match tokenizeGo fuel (spanNum cs).2 with
          | .error e => .error e
          | .ok ts => .ok (Tok.num v :: ts)
      else if c == '*' then
        match cs with
        | '*' :: cs2 =>
          match tokenizeGo fuel cs2 with
          | .error e => .error e
          | .ok ts => .ok (Tok.dstar :: ts)
        | _ =>
          match tokenizeGo fuel cs with
          | .error e => .error e
          | .ok ts => .ok (Tok.star :: ts)
      else if c == '/' then
        match cs with
        | '/' :: cs2 =>
          match tokenizeGo fuel cs2 with
          | .error e => .error e
          | .ok ts => .ok (Tok.dslash :: ts)
        | _ =>
          match tokenizeGo fuel cs with
          | .error e => .error e
          | .ok ts => .ok (Tok.slash :: ts)
      else if c == '+' then
        match tokenizeGo fuel cs with
        | .error e => .error e
        | .ok ts => .ok (Tok.plus :: ts)
      else if c == '-' then
        match tokenizeGo fuel cs with
        | .error e => .error e
        | .ok ts => .ok (Tok.minus :: ts)
      else if c == '(' then
        match tokenizeGo fuel cs with
        | .error e => .error e
        | .ok ts => .ok (Tok.lpar :: ts)
      else if c == ')' then
        match tokenizeGo fuel cs with
        | .error e => .error e
        | .ok ts => .ok (Tok.rpar :: ts)
      else .error "invalid character"

/-- Tokenizer for the restricted arithmetic language (the fragment of the
Python tokenizer reachable from the allowed character class; `**` and `//`
are two-character tokens). -/
def tokenize (l : List Char) : Except String (List Tok) := tokenizeGo l.length l

/-- Which nonterminal a `parseGo` step is handling:
`e`/`eLoop` = expression (additive level), `t`/`tLoop` = term
(multiplicative level), `f` = factor (unary sign), `p` = power, `a` = atom. -/
inductive PMode where
  | e
  | eLoop (acc : Expr)
  | t
  | tLoop (acc : Expr)
  | f
  | p
  | a

/-- Fuel-indexed recursive descent over Python's expression grammar
restricted to the allowed character class:

  expression := term (('+' | '-') term)*
  term       := factor (('*' | '/' | '//') factor)*
  factor     := ('+' | '-') factor | power
  power      := atom ('**' factor)?          (right-associative)
  atom       := NUMBER | '(' expression ')'

The fuel passed by `parseExpr` always suffices. -/
def parseGo : Nat → PMode → List Tok → Except String (Expr × List Tok)
  | 0, _, _ => .error "invalid syntax"
  | fuel + 1, mode, ts =>
    match mode with
    | .e =>
      match parseGo fuel .t ts with
      | .error er => .error er
      | .ok (t, ts1) => parseGo fuel (.eLoop t) ts1
    | .eLoop acc =>
      match ts with
      | Tok.plus :: rest =>
        match parseGo fuel .t rest with
        | .error er => .error er
        | .ok (t, ts2) => parseGo fuel (.eLoop (.binop .add acc t)) ts2
      | Tok.minus :: rest =>
        match parseGo fuel .t rest with
        | .error er => .error er
        | .ok (t, ts2) => parseGo fuel (.eLoop (.binop .sub acc t)) ts2
      | _ => .ok (acc, ts)
    | .t =>
      match parseGo fuel .f ts with
      | .error er => .error er
      | .ok (f, ts1) => parseGo fuel (.tLoop f) ts1
    | .tLoop acc =>
      match ts with
      | Tok.star :: rest =>
        match parseGo fuel .f rest with
        | .error er => .error er
        | .ok (f, ts2) => parseGo fuel (.tLoop (.binop .mul acc f)) ts2
      | Tok.slash :: rest =>
        match parseGo fuel .f rest with
        | .error er => .error er
        | .ok (f, ts2) => parseGo fuel (.tLoop (.binop .div acc f)) ts2
      | Tok.dslash :: rest =>
        match parseGo fuel .f rest with
        | .error er => .error er
        | .ok (f, ts2) => parseGo fuel (.tLoop (.binop .floordiv acc f)) ts2
      | _ => .ok (acc, ts)
    | .f =>
      match ts with
      | Tok.plus :: rest =>
        match parseGo fuel .f rest with
        | .error er => .error er
        | .ok (f, ts1) => .ok (.unop .pos f, ts1)
      | Tok.minus :: rest =>
        match parseGo fuel .f rest with
        | .error er => .error er
        | .ok (f, ts1) => .ok (.unop .neg f, ts1)
      | _ => parseGo fuel .p ts
    | .p =>
      match parseGo fuel .a ts with
      | .error er => .error er
      | .ok (atom, ts1) =>
        match ts1 with
        | Tok.dstar :: rest =>
          match parseGo fuel .f rest with
          | .error er => .error er
          | .ok (f, ts2) => .ok (.binop .pow atom f, ts2)
        | _ => .ok (atom, ts1)
    | .a =>
      match ts with
      | Tok.num v :: rest => .ok (.num v, rest)
      | Tok.lpar :: rest =>
        match parseGo fuel .e rest with
        | .error er => .error er
        | .ok (e, ts1) =>
          match ts1 with
          | Tok.rpar :: ts2 => .ok (e, ts2)
          | _ => .error "invalid syntax"
      | _ => .error "invalid syntax"

/-- `ast.parse(expression, mode='eval')` on the restricted language. -/
def parseExpr (s : String) : Except String Expr :=
  match tokenize s.data with
  | .error e => .error e
  | .ok toks =>
    match parseGo (10 * (toks.length + 1)) .e toks with
    | .error e => .error e
    | .ok (e, rest) => if rest.isEmpty then .ok e else .error "invalid syntax"

/-- Python `a ** b` on the values reachable here.  Integral exponents are
exact; `0` to a negative power raises `ZeroDivisionError` exactly as in
Python.  A fractional exponent produces an irrational float in Python and is
outside the exact-fraction model (flagged as an error; no claim exercises
it). -/
def fpow (a b : Frac) : Except String Frac :=
  if b.den ≠ 0 && b.num.emod b.den == 0 then
    let k : Int := b.num / b.den
    if 0 ≤ k then .ok (fpowNat a k.toNat)
    else if fIsZero a then .error "Division by zero"
    else .ok (fdiv ⟨1, 1⟩ (fpowNat a (-k).toNat))
  else .error "non-integer exponent"

/-- `self.OPERATORS[type(node.op)](left, right)`: `ZeroDivisionError`
becomes the distinct "Division by zero" outcome; `ast.FloorDiv` has no
`OPERATORS` entry, so it raises (`KeyError`), caught generically. -/
def applyBin (op : BinOpK) (a b : Frac) : Except String Frac :=
  match op with
  | .add => .ok (fadd a b)
  | .sub => .ok (fsub a b)
  | .mul => .ok (fmul a b)
  | .div => if fIsZero b then .error "Division by zero" else .ok (fdiv a b)
  | .pow => fpow a b
  | .floordiv => .error "unsupported operator"

/-- `CalculatorService.evaluate_node`. -/
def evaluate_node : Expr → Except String Frac
  | .num v => .ok v
  | .binop op l r =>
    match evaluate_node l with
    | .error e => .error e
    | .ok a =>
      match evaluate_node r with
      | .error e => .error e
      | .ok b => applyBin op a b
  | .unop op e =>
    match evaluate_node e with
    | .error e => .error e
    | .ok a => match op with | .neg => .ok (-a) | .pos => .ok a

/-- Result of `CalculatorService.calculate`: the `{"success": True,
"expression": ..., "result": ...}` / `{"success": False, "error": ...}`
dictionary. -/
inductive CalcOutcome where
  | success (expression : String) (result : Frac)
  | failure (error : String)
deriving DecidableEq

/-- `CalculatorService.calculate` (server.py lines 123-136): strip, gate on
the character class, parse, evaluate; `ZeroDivisionError` is reported as
"Division by zero" and any other parse/evaluation error generically. -/
def calculate (expression : String) : CalcOutcome :=
  let expr := trimS expression
  if !is_valid_expression expr then .failure "Invalid expression"
  else
    match parseExpr expr with
    | .error e => .failure e
    | .ok t =>
      match evaluate_node t with
      | .error e => .failure e
      | .ok v => .success expr v

def isSuccess : CalcOutcome → Bool
  | .success _ _ => true
  | .failure _ => false

/-- The spec's error taxonomy for calculator outcomes: a numeric result,
the distinct `DivisionByZero` error, or the generic `InvalidExpression`
error (anything else). -/
inductive CalcErrKind where
  | numericResult | divisionByZero | invalidExpression
deriving DecidableEq

def errorKind : CalcOutcome → CalcErrKind
  | .success _ _ => .numericResult
  | .failure e => if e = "Division by zero" then .divisionByZero else .invalidExpression


/-! ## Display formatting helpers -/

/-- Rendering of a numeric value into response text (e.g. `f"The answer is
{result}."`).  Integral values print like Python ints; non-integral values
are shown as `num/den` - an approximation of Python's float `repr`, used
only for display (no claim inspects the digits of a non-integral number). -/
def renderF (q : Frac) : String :=
  if q.den = 1 then toString q.num
  else if q.den ≠ 0 && q.num.emod q.den == 0 then toString (q.num / q.den)
  else toString q.num ++ "/" ++ toString q.den

/-- Comma grouping of a reversed digit list (worker for `fmtMoney`). -/
def group3 : Nat → List Char → List Char
  | 0, l => l
  | _ + 1, [] => []
  | fuel + 1, ds =>
    if ds.length ≤ 3 then ds
    else ds.take 3 ++ ',' :: group3 fuel (ds.drop 3)

/-- Python's `f"{price:,.2f}"`: two decimals, thousands separators. -/
def fmtMoney (q : Frac) : String :=
  let c : Int := fRound (fmul q ⟨100, 1⟩)
  let sign := if c < 0 then "-" else ""
  let a := c.natAbs
  let whole := (toString (a / 100)).data
  sign ++ (⟨(group3 whole.length whole.reverse).reverse⟩ : String) ++ "." ++
    (if a % 100 < 10 then "0" else "") ++ toString (a % 100)

/-- Python's `f"{change:+.2f}"`: explicit sign, two decimals. -/
def fmtSigned (q : Frac) : String :=
  let c : Int := fRound (fmul q ⟨100, 1⟩)
  let sign := if c < 0 then "-" else "+"
  let a := c.natAbs
  sign ++ toString (a / 100) ++ "." ++
    (if a % 100 < 10 then "0" else "") ++ toString (a % 100)

/-! ## Pollinations URL construction (`api_clients.py` lines 12-48) -/

def hexChar (n : Nat) : Char :=
  if n < 10 then Char.ofNat (48 + n) else Char.ofNat (55 + n)

/-- `urllib.parse.quote` on one character (ASCII fragment; multi-byte UTF-8
percent-encoding is not modelled - no claim inspects an encoded non-ASCII
URL).  Safe characters: letters, digits, `_.-~` and the default-safe `/`. -/
def quoteChar (c : Char) : List Char :=
  if c.isAlpha || c.isDigit || c == '_' || c == '.' || c == '-' || c == '~' || c == '/'
  then [c]
  else ['%', hexChar (c.toNat / 16 % 16), hexChar (c.toNat % 16)]

def urlQuote (s : String) : String := ⟨s.data.foldr (fun c acc => quoteChar c ++ acc) []⟩

/-- `PollinationsClient.generate_image_url` (width/height default 512). -/
def generate_image_url (prompt : String) : String :=
  "https://image.pollinations.ai/prompt/" ++ urlQuote prompt ++
    "?width=512&height=512&nologo=true"

/-- `PollinationsClient.generate_audio_url` - note the source builds the
audio URL on `text_base_url`. -/
def generate_audio_url (text voice : String) : String :=
  "https://text.pollinations.ai/" ++ urlQuote text ++ "?model=openai-audio&voice=" ++ voice

/-- `generate_audio_for_response` (server.py lines 524-535): truncate long
text, then build the TTS URL; the body is pure, so it never takes the
exception path. -/
def generate_audio_for_response (text : String) : String :=
  generate_audio_url (if text.length > 500 then takeStr 497 text ++ "..." else text) "alloy"

/-! ## Data model (the pydantic models of server.py) -/

/-- `SearchResult`. -/
structure SearchResult where
  title : String
  link : String
  snippet : String
  position : Option Int := none
deriving DecidableEq

/-- `ImageResult`. -/
structure ImageResult where
  url : String
  thumbnail : String
  width : Int
  height : Int
deriving DecidableEq

/-- One entry of the `definitions` list built by
`get_dictionary_definition` (the `example` key defaults to `""`). -/
structure DefEntry where
  definition : String
  part_of_speech : String
  «example» : String
deriving DecidableEq

/-- The dictionary payload returned by `get_dictionary_definition`. -/
structure DictData where
  word : String
  phonetic : String
  definitions : List DefEntry
deriving DecidableEq

/-- `SearchResponse` - the aggregated search result.  `total_results` and
`search_time` are `Optional[str]` fields defaulting to `None` in the
pydantic model. -/
structure SearchResponse where
  query : String
  ai_overview : Option String := none
  web_results : List SearchResult := []
  images : List ImageResult := []
  dictionary : Option DictData := none
  calculator_result : Option CalcOutcome := none
  wikipedia_summary : Option String := none
  total_results : Option String := none
  search_time : Option String := none
deriving DecidableEq

/-- `ChatResponse`. -/
structure ChatResponse where
  response : String
  needs_search : Bool := false
  search_data : Option SearchResponse := none
  audio_url : Option String := none
deriving DecidableEq

/-- `ChatRequest`. -/
structure ChatRequest where
  message : String
  conversation_history : List (String × String) := []

/-- One coin entry of the CoinGecko `get_price` payload (`usd` and
`usd_24h_change` are read with `.get(..., 0)`).  The list preserves the
JSON object's insertion order, which `dict.items()` iterates. -/
structure CryptoEntry where
  coin : String
  usd : Option Frac
  usd_24h_change : Option Frac
deriving DecidableEq

/-- One Arxiv paper as parsed by `ArxivClient._parse_arxiv_response`. -/
structure Paper where
  title : String
  summary : String
  published : String
  id : String
deriving DecidableEq

/-- One Stack Exchange question item (fields read with `.get` defaults). -/
structure SOQuestion where
  title : Option String
  score : Option Int
  answer_count : Option Int
  link : Option String
deriving DecidableEq

/-- The `current_weather` object of the Open-Meteo payload (fields read
with `.get(..., 0)`). -/
structure CurrentWeather where
  temperature : Option Frac
  windspeed : Option Frac
deriving DecidableEq

/-- The Open-Meteo payload; `current_weather` may be missing. -/
structure WeatherJson where
  current_weather : Option CurrentWeather
deriving DecidableEq

/-- The PokeAPI payload fields the server reads (the nested
`types[].type.name` list is flattened to the names, `sprites.front_default`
may be JSON null). -/
structure Pokemon where
  name : String
  height : Int
  weight : Int
  types : List String
  sprite_front_default : Option String
deriving DecidableEq

/-- A programming quote (`en` / `author` read with `.get` defaults). -/
structure Quote where
  en : Option String
  author : Option String
deriving DecidableEq

/-- The IPInfo payload fields the server reads. -/
structure IpData where
  ip : Option String
  city : Option String
  region : Option String
  country : Option String
  org : Option String
deriving DecidableEq

/-- One `organic_results` item of the SerpAPI payload (all fields read
with `.get` defaults). -/
structure OrganicResult where
  title : Option String
  link : Option String
  snippet : Option String
  position : Option Int
deriving DecidableEq

/-- The `search_information` object of the SerpAPI payload.  The server
applies `str(...)` to values read with `.get(..., "")`; the env supplies
them already stringified. -/
structure SearchInfo where
  total_results : Option String
  time_taken_displayed : Option String
deriving DecidableEq

/-- The SerpAPI payload fields the server reads. -/
structure SerpData where
  organic_results : List OrganicResult
  search_information : Option SearchInfo
deriving DecidableEq

/-- The provider environment: for each external call, the result it would
return during this request.  `none` (or `[]` for Pixabay) models a failed,
timed-out or empty call - the clients catch every exception and return
`None`, and the aggregator's `gather(..., return_exceptions=True)` maps
exceptions to the same defaults. -/
structure Env where
  /-- `coingecko.get_price(ids)` as a function of the comma-joined ids. -/
  coingecko : String → Option (List CryptoEntry)
  /-- `arxiv.search(query)`. -/
  arxiv : String → Option (List Paper)
  /-- `stackexchange.search(query)`. -/
  stackexchange : String → Option (List SOQuestion)
  /-- `openmeteo.get_weather(lat, lon)`. -/
  openmeteo : Frac → Frac → Option WeatherJson
  /-- `pokeapi.get_pokemon(name)`. -/
  pokeapi : String → Option Pokemon
  /-- `dogapi.get_random_dog()`. -/
  dogapi : Option String
  /-- `catapi.get_random_cat()`. -/
  catapi : Option String
  /-- `chucknorris.get_random_joke()`. -/
  chucknorris : Option String
  /-- `programming_quotes.get_random_quote()`. -/
  quotes : Option Quote
  /-- `ipinfo.get_ip_info()`. -/
  ipinfo : Option IpData
  /-- `get_dictionary_definition(word)`. -/
  dictionary : String → Option DictData
  /-- `serp_search()` as a function of the query and the requested `num`. -/
  serp : String → Nat → Option SerpData
  /-- `get_ai_overview(query)` (Cerebras; returns `None` on error). -/
  aiOverview : String → Option String
  /-- `search_pixabay_images(query)` (returns `[]` on error). -/
  pixabay : String → List ImageResult
  /-- `get_wikipedia_summary(query)`. -/
  wiki : String → Option String
  /-- `pollinations.generate_text(...)` inside
  `generate_enhanced_response`; `none` models an exception or `None`. -/
  pollinationsText : Option String
  /-- The Cerebras chat completion inside `generate_enhanced_response`;
  `none` models a raised exception. -/
  cerebrasText : Option String

/-! ## Specialized handlers (server.py lines 294-521)

Each `handle_*` returns the payload the `chat` endpoint formats, or `none`
where the Python function returns `None`.  Python truthiness checks on the
payloads (`if prices:`, `if papers:`, `if joke:`...) are modelled explicitly
(`none`, empty list and empty string are falsy). -/

def pollinationsTriggers : List String :=
  ["generate image", "create image", "draw", "make a picture",
   "generate an image", "create an image", "can you generate", "can you create"]

def pollinationsTriggered (m : String) : Bool :=
  pollinationsTriggers.any (fun t => containsSub t (lowerStr m))

/-- The prompt after the trigger-stripping loop of
`handle_pollinations_query` (each round lower-cases, removes one trigger
phrase everywhere, and strips). -/
def strippedPromptRaw (m : String) : String :=
  pollinationsTriggers.foldl (fun p t => trimS (replaceS (lowerStr p) t "")) m

/-- The prompt after additionally dropping `of` when the text is empty or
starts with "of" (`prompt.replace("of", "")` removes every occurrence). -/
def strippedPrompt (m : String) : String :=
  let p := strippedPromptRaw m
  if p = "" || startsWithS p "of" then trimS (replaceS p "of" "") else p

/-- `handle_pollinations_query` (lines 294-320): on a trigger match the
handler always produces a result - an empty residual prompt falls back to
the fixed default prompt, and URL construction is pure. -/
def handle_pollinations_query (m : String) : Option (String × String) :=
  if pollinationsTriggered m then
    let prompt := if strippedPrompt m = "" then "a beautiful landscape" else strippedPrompt m
    some (prompt, generate_image_url prompt)
  else none

def cryptoTriggered (m : String) : Bool :=
  ["crypto", "bitcoin", "ethereum", "price"].any (fun w => containsSub w (lowerStr m))

/-- The coin-id list scanned out of the message (fixed recognition list, in
source order), defaulting to bitcoin+ethereum when none is recognized. -/
def coinIds (m : String) : List String :=
  let ml := lowerStr m
  let ids :=
    (if containsSub "bitcoin" ml || containsSub "btc" ml then ["bitcoin"] else []) ++
    (if containsSub "ethereum" ml || containsSub "eth" ml then ["ethereum"] else []) ++
    (if containsSub "dogecoin" ml || containsSub "doge" ml then ["dogecoin"] else []) ++
    (if containsSub "cardano" ml || containsSub "ada" ml then ["cardano"] else []) ++
    (if containsSub "solana" ml || containsSub "sol" ml then ["solana"] else [])
  if ids.isEmpty then ["bitcoin", "ethereum"] else ids

/-- `handle_crypto_query` (lines 323-352).  `if prices:` - `None` and the
empty dict are both falsy. -/
def handle_crypto_query (m : String) (env : Env) : Option (List CryptoEntry) :=
  if cryptoTriggered m then
    match env.coingecko (String.intercalate "," (coinIds m)) with
    | some prices => if prices.isEmpty then none else some prices
    | none => none
  else none

def arxivTriggered (m : String) : Bool :=
  ["research", "paper", "arxiv", "academic"].any (fun w => containsSub w (lowerStr m))

/-- `handle_arxiv_query` (lines 355-372). -/
def handle_arxiv_query (m : String) (env : Env) : Option (List Paper) :=
  if arxivTriggered m then
    let q := ["research on", "paper about", "arxiv", "academic"].foldl
      (fun acc w => trimS (replaceS (lowerStr acc) w "")) m
    if q ≠ "" then
      match env.arxiv q with
      | some papers => if papers.isEmpty then none else some papers
      | none => none
    else none
  else none

def stackTriggered (m : String) : Bool :=
  ["stack overflow", "programming question", "how to code"].any
    (fun w => containsSub w (lowerStr m))

/-- `handle_stackoverflow_query` (lines 375-392). -/
def handle_stackoverflow_query (m : String) (env : Env) : Option (List SOQuestion) :=
  if stackTriggered m then
    let q := ["stack overflow", "programming question", "how to code"].foldl
      (fun acc w => trimS (replaceS (lowerStr acc) w "")) m
    if q ≠ "" then
      match env.stackexchange q with
      | some qs => if qs.isEmpty then none else some qs
      | none => none
    else none
  else none

def weatherTriggered (m : String) : Bool :=
  ["weather", "temperature", "forecast"].any (fun w => containsSub w (lowerStr m))

/-- The city-recognition chain of `handle_weather_query` (default New
York). -/
def weatherLocation (ml : String) : Frac × Frac × String :=
  if containsSub "london" ml then (51.5074, -0.1278, "London")
  else if containsSub "paris" ml then (48.8566, 2.3522, "Paris")
  else if containsSub "tokyo" ml then (35.6762, 139.6503, "Tokyo")
  else if containsSub "sydney" ml then (-33.8688, 151.2093, "Sydney")
  else (40.7128, -74.0060, "New York")

/-- `handle_weather_query` (lines 395-427): requires both a payload and a
truthy `current_weather` field. -/
def handle_weather_query (m : String) (env : Env) : Option (CurrentWeather × String) :=
  if weatherTriggered m then
    match weatherLocation (lowerStr m) with
    | (lat, lon, name) =>
      match env.openmeteo lat lon with
      | some wj =>
        match wj.current_weather with
        | some cw => some (cw, name)
        | none => none
      | none => none
  else none

def pokemonTriggered (m : String) : Bool :=
  containsSub "pokemon" (lowerStr m) || containsSub "pokémon" (lowerStr m)

/-- `handle_pokemon_query` (lines 430-445): an empty residual name skips
the provider call entirely. -/
def handle_pokemon_query (m : String) (env : Env) : Option Pokemon :=
  if pokemonTriggered m then
    let nm := trimS (replaceS (replaceS (lowerStr m) "pokemon" "") "pokémon" "")
    if nm ≠ "" then env.pokeapi nm else none
  else none

def dogTriggered (m : String) : Bool :=
  containsSub "dog" (lowerStr m) || containsSub "puppy" (lowerStr m)

/-- `handle_dog_query` (lines 448-460); `if image_url:` - empty string is
falsy. -/
def handle_dog_query (m : String) (env : Env) : Option String :=
  if dogTriggered m then
    match env.dogapi with
    | some u => if u = "" then none else some u
    | none => none
  else none

def catTriggered (m : String) : Bool :=
  containsSub "cat" (lowerStr m) || containsSub "kitten" (lowerStr m)

/-- `handle_cat_query` (lines 463-475). -/
def handle_cat_query (m : String) (env : Env) : Option String :=
  if catTriggered m then
    match env.catapi with
    | some u => if u = "" then none else some u
    | none => none
  else none

def jokeTriggered (m : String) : Bool :=
  containsSub "joke" (lowerStr m) &&
    (containsSub "chuck" (lowerStr m) || containsSub "norris" (lowerStr m))

/-- `handle_joke_query` (lines 478-490). -/
def handle_joke_query (m : String) (env : Env) : Option String :=
  if jokeTriggered m then
    match env.chucknorris with
    | some j => if j = "" then none else some j
    | none => none
  else none

def quoteTriggered (m : String) : Bool :=
  containsSub "quote" (lowerStr m) &&
    (containsSub "programming" (lowerStr m) || containsSub "dev" (lowerStr m))

/-- `handle_quote_query` (lines 493-505). -/
def handle_quote_query (m : String) (env : Env) : Option Quote :=
  if quoteTriggered m then env.quotes else none

def ipTriggered (m : String) : Bool :=
  containsSub "my ip" (lowerStr m) || containsSub "ip address" (lowerStr m) ||
    containsSub "ip info" (lowerStr m)

/-- `handle_ip_query` (lines 508-520). -/
def handle_ip_query (m : String) (env : Env) : Option IpData :=
  if ipTriggered m then env.ipinfo else none

/-! ## Intent classifier (`determine_intent`, server.py lines 243-291) -/

def searchKeywords : List String :=
  ["search", "find", "show me", "images of", "pictures of", "articles about",
   "define", "what is", "tell me about", "explain"]

/-- `determine_intent`: the disjunction of all keyword rules (each Python
`if` only ever sets `needs_search = True`), the single-long-token rule and
the arithmetic rule. -/
def determine_intent (m : String) : Bool :=
  let ml := lowerStr m
  searchKeywords.any (fun k => containsSub k ml) ||
  ["generate image", "create image", "draw", "make a picture",
   "can you generate an image", "can you create an image"].any (fun w => containsSub w ml) ||
  ["crypto", "bitcoin", "ethereum", "price of"].any (fun w => containsSub w ml) ||
  ["research", "paper", "arxiv", "academic"].any (fun w => containsSub w ml) ||
  ["programming question", "stack overflow", "how to code"].any (fun w => containsSub w ml) ||
  ["weather", "temperature", "forecast"].any (fun w => containsSub w ml) ||
  ["pokemon", "pokémon"].any (fun w => containsSub w ml) ||
  containsSub "dog" ml || containsSub "cat" ml ||
  containsSub "puppy" ml || containsSub "kitten" ml ||
  (containsSub "joke" ml && containsSub "chuck" ml) ||
  (containsSub "quote" ml && (containsSub "programming" ml || containsSub "dev" ml)) ||
  containsSub "my ip" ml || containsSub "ip address" ml || containsSub "ip info" ml ||
  (match wordsOf m with
   | [w] => decide (w.length > 3)
   | _ => false) ||
  is_valid_expression m

/-! ## Conversation fallback chain (server.py lines 538-611) -/

/-- `generate_fallback_response` (lines 590-606): rule-based canned replies,
reached only when both language-model backends fail. -/
def generate_fallback_response (message : String) : String :=
  let ml := lowerStr message
  if ["hi", "hello", "hey", "greetings"].any (fun g => containsSub g ml) then
    "Hello! I\x27m Gerch, your AI-powered search assistant. How can I help you today?"
  else if ["how are you", "what\x27s up", "how do you do"].any (fun w => containsSub w ml) then
    "I\x27m doing great, thank you! I\x27m here to help you search for information, answer questions, and assist with various tasks. What would you like to know?"
  else if ["thank", "thanks", "appreciate"].any (fun w => containsSub w ml) then
    "You\x27re very welcome! Let me know if you need anything else."
  else if containsSub "who are you" ml || containsSub "what are you" ml then
    "I\x27m Gerch, an AI-powered search engine and assistant. I can help you find information, answer questions, generate images, get crypto prices, check weather, and much more!"
  else
    "I understand your message. I\x27m here to help! Could you please provide more details or ask a specific question?"

/-- `generate_enhanced_response` (lines 538-587): try Pollinations text
generation first (truthiness check - an empty string falls through), then
Cerebras (returned unconditionally on success), else the rule-based
fallback.  The produced LLM text is abstracted by the env; the history and
search-context arguments shape the prompt but not the modelled output.
Note this function always returns a string - in particular, when both
model calls fail it returns the canned fallback, not an error. -/
def generate_enhanced_response (message : String)
    (_history : List (String × String)) (_search_context : Option String)
    (env : Env) : String :=
  match env.pollinationsText with
  | some t =>
    if t ≠ "" then t
    else
      match env.cerebrasText with
      | some c => c
      | none => generate_fallback_response message
  | none =>
    match env.cerebrasText with
    | some c => c
    | none => generate_fallback_response message

/-! ## Aggregator (`search` endpoint, server.py lines 828-903) -/

/-- `SearchRequest` (`num_results` defaults to 10). -/
structure SearchRequest where
  query : String
  num_results : Nat := 10

/-- The `web_results` assembly loop (lines 875-882): `.get` defaults plus
1-based renumbering of the zero-based enumeration index when the provider
supplies no explicit position. -/
def mkWebResults : Nat → List OrganicResult → List SearchResult
  | _, [] => []
  | idx, r :: rs =>
    { title := r.title.getD "Untitled",
      link := r.link.getD "",
      snippet := r.snippet.getD "No description available",
      position := some (r.position.getD (Int.ofNat idx + 1)) } :: mkWebResults (idx + 1) rs

/-- The `search` endpoint (lines 828-903): gate-checked calculator,
single-word dictionary lookup, and the four concurrently gathered branches
(SerpAPI with `num = min(num_results, 20)`, AI overview, Pixabay,
Wikipedia).  Every branch failure is absorbed into a default (`{}` /
`None` / `[]`), so the function is total - the aggregator itself cannot
fail.  `total_results` and `search_time` are always set to the stringified
metadata, `""` when absent. -/
def search (req : SearchRequest) (env : Env) : SearchResponse :=
  let calc_result := if is_valid_expression req.query then some (calculate req.query) else none
  let dict_result :=
    match wordsOf req.query with
    | [w] => env.dictionary w
    | _ => none
  let serp_data := (env.serp req.query (min req.num_results 20)).getD ⟨[], none⟩
  let search_info := serp_data.search_information.getD ⟨none, none⟩
  { query := req.query,
    ai_overview := env.aiOverview req.query,
    web_results := mkWebResults 0 serp_data.organic_results,
    images := env.pixabay req.query,
    dictionary := dict_result,
    calculator_result := calc_result,
    wikipedia_summary := env.wiki req.query,
    total_results := some (search_info.total_results.getD ""),
    search_time := some (search_info.time_taken_displayed.getD "") }

/-! ## Response composition from an aggregated result (chat, lines 762-792) -/

/-- One rendered definition line of the dictionary response (`example`
printed only when truthy). -/
def defnLine (d : DefEntry) : String :=
  "*" ++ d.part_of_speech ++ "*: " ++ d.definition ++ "\n" ++
    (if d.«example» ≠ "" then "Example: \"" ++ d.«example» ++ "\"\n" else "")

/-- The dictionary-based response text (word, optional phonetic, first two
definitions). -/
def dictText (d : DictData) : String :=
  (d.definitions.take 2).foldl (fun acc dn => acc ++ defnLine dn)
    ("**" ++ d.word ++ "**" ++ (if d.phonetic ≠ "" then " " ++ d.phonetic else "") ++ "\n\n")

/-- The `if`/`elif` chain choosing the primary response text from an
aggregated result: successful calculator, then dictionary, then Wikipedia
summary, then first web snippet, then the generic text. -/
def composeText (sr : SearchResponse) : String :=
  match sr.calculator_result with
  | some (.success _ v) => "The answer is " ++ renderF v ++ "."
  | _ =>
    match sr.dictionary with
    | some d => dictText d
    | none =>
      match sr.wikipedia_summary with
      | some w => w
      | none =>
        match sr.web_results with
        | r :: _ => "Based on my search: " ++ r.snippet
        | [] => "I found some information, but let me show you what I discovered."

/-! ## Per-handler response formatting (chat, lines 616-741) -/

def cryptoLine (e : CryptoEntry) : String :=
  "**" ++ capitalizeStr e.coin ++ "**: $" ++ fmtMoney (e.usd.getD 0) ++
    " (" ++ fmtSigned (e.usd_24h_change.getD 0) ++ "%)\n"

def formatCrypto (entries : List CryptoEntry) : String :=
  entries.foldl (fun acc e => acc ++ cryptoLine e) "**Cryptocurrency Prices:**\n\n"

def paperBlock (i : Nat) (p : Paper) : String :=
  "**" ++ toString i ++ ". " ++ p.title ++ "**\n" ++
    takeStr 200 p.summary ++ "...\n" ++ "[Read more](" ++ p.id ++ ")\n\n"

def formatPapersGo : Nat → List Paper → String
  | _, [] => ""
  | i, p :: ps => paperBlock i p ++ formatPapersGo (i + 1) ps

/-- The paper list formatting (`enumerate(papers[:3], 1)`). -/
def formatPapers (papers : List Paper) : String :=
  "**Research Papers:**\n\n" ++ formatPapersGo 1 (papers.take 3)

def questionBlock (i : Nat) (q : SOQuestion) : String :=
  "**" ++ toString i ++ ". " ++ q.title.getD "No title" ++ "**\n" ++
    "Score: " ++ toString (q.score.getD 0) ++ " | Answers: " ++
    toString (q.answer_count.getD 0) ++ "\n" ++
    "[View question](" ++ q.link.getD "#" ++ ")\n\n"

def formatQuestionsGo : Nat → List SOQuestion → String
  | _, [] => ""
  | i, q :: qs => questionBlock i q ++ formatQuestionsGo (i + 1) qs

def formatQuestions (qs : List SOQuestion) : String :=
  "**Programming Questions:**\n\n" ++ formatQuestionsGo 1 (qs.take 3)

def weatherText (cw : CurrentWeather) (location : String) : String :=
  "**Weather in " ++ location ++ "**\n\n" ++
    "Temperature: " ++ renderF (cw.temperature.getD 0) ++ "°C\n" ++
    "Wind Speed: " ++ renderF (cw.windspeed.getD 0) ++ " km/h\n"

def pokemonText (p : Pokemon) : String :=
  "**" ++ capitalizeStr p.name ++ "**\n\n" ++
    "Height: " ++ renderF (fdiv (fOfInt p.height) ⟨10, 1⟩) ++ "m | Weight: " ++
    renderF (fdiv (fOfInt p.weight) ⟨10, 1⟩) ++ "kg\n" ++
    "Types: " ++ String.intercalate ", " p.types ++ "\n"

def quoteText (q : Quote) : String :=
  "*\"" ++ q.en.getD "" ++ "\"*\n\n— " ++ q.author.getD "Unknown"

def ipText (d : IpData) : String :=
  "**IP Information**\n\n" ++
    "IP: " ++ d.ip.getD "N/A" ++ "\n" ++
    "Location: " ++ d.city.getD "N/A" ++ ", " ++ d.region.getD "N/A" ++ ", " ++
    d.country.getD "N/A" ++ "\n" ++
    "Organization: " ++ d.org.getD "N/A" ++ "\n"

/-! ## The chat endpoint's handler chain (server.py lines 616-741) -/

/-- Which specialized handler produced the early-returned response. -/
inductive HandlerTag where
  | imageGen | crypto | papers | qa | weather
  | creatureSprite | creatureNoSprite | dog | cat | joke | quoteTag | ipTag
deriving DecidableEq

/-- The sequence of `handle_*` checks at the top of `chat`, in source
order; the first handler returning data short-circuits the rest (each
`if X_result: return ChatResponse(...)`).  Returns the produced response
together with a tag naming the producing branch. -/
def dispatchChain (m : String) (env : Env) : Option (HandlerTag × ChatResponse) :=
  match handle_pollinations_query m with
  | some (prompt, url) => some (.imageGen,
      { response := "Here\x27s your image: " ++ prompt, needs_search := true,
        search_data := some { query := m, images := [⟨url, url, 512, 512⟩] } })
  | none =>
    match handle_crypto_query m env with
    | some prices => some (.crypto, { response := formatCrypto prices })
    | none =>
      match handle_arxiv_query m env with
      | some papers => some (.papers, { response := formatPapers papers })
      | none =>
        match handle_stackoverflow_query m env with
        | some qs => some (.qa, { response := formatQuestions qs })
        | none =>
          match handle_weather_query m env with
          | some (cw, loc) => some (.weather, { response := weatherText cw loc })
          | none =>
            match handle_pokemon_query m env with
            | some pk =>
              match pk.sprite_front_default with
              | some u =>
                if u ≠ "" then
                  some (.creatureSprite,
                    { response := pokemonText pk, needs_search := true,
                      search_data := some { query := m, images := [⟨u, u, 96, 96⟩] } })
                else some (.creatureNoSprite, { response := pokemonText pk })
              | none => some (.creatureNoSprite, { response := pokemonText pk })
            | none =>
              match handle_dog_query m env with
              | some u => some (.dog,
                  { response := "Here\x27s a cute dog for you!", needs_search := true,
                    search_data := some { query := m, images := [⟨u, u, 400, 400⟩] } })
              | none =>
                match handle_cat_query m env with
                | some u => some (.cat,
                    { response := "Here\x27s a cute cat for you!", needs_search := true,
                      search_data := some { query := m, images := [⟨u, u, 400, 400⟩] } })
                | none =>
                  match handle_joke_query m env with
                  | some j => some (.joke, { response := "😄 " ++ j })
                  | none =>
                    match handle_quote_query m env with
                    | some q => some (.quoteTag, { response := quoteText q })
                    | none =>
                      match handle_ip_query m env with
                      | some d => some (.ipTag, { response := ipText d })
                      | none => none

/-- The pure-conversation path (lines 747-754). -/
def convPath (req : ChatRequest) (env : Env) : ChatResponse :=
  let rt := generate_enhanced_response req.message req.conversation_history none env
  { response := rt, needs_search := false, search_data := none,
    audio_url := some (generate_audio_for_response rt) }

/-- The search path of `chat` (lines 756-821): aggregate, compose the
primary text, optionally re-run it through the LLM - note the guard skips
enrichment only when the calculator result exists AND is NOT successful, or
when a dictionary hit exists - then attach audio and the search payload. -/
def searchPath (req : ChatRequest) (env : Env) : ChatResponse :=
  let sr := search { query := req.message, num_results := 10 } env
  let rt := composeText sr
  let rt2 :=
    if (match sr.calculator_result with
        | some c => !isSuccess c
        | none => false) then rt
    else if sr.dictionary.isSome then rt
    else
      let enhanced := generate_enhanced_response req.message req.conversation_history (some rt) env
      if enhanced ≠ "" then enhanced else rt
  { response := rt2, needs_search := true, search_data := some sr,
    audio_url := some (generate_audio_for_response rt2) }

/-- The `chat` endpoint (lines 613-825): specialized handler chain first,
then the intent classifier routes to the aggregated-search path or the
conversational path. -/
def chat (req : ChatRequest) (env : Env) : ChatResponse :=
  match dispatchChain req.message env with
  | some tr => tr.2
  | none =>
    if determine_intent req.message then searchPath req env else convPath req env

/-- All-absent provider environment: every external call fails or returns
nothing. -/
def envNone : Env :=
  { coingecko := fun _ => none, arxiv := fun _ => none, stackexchange := fun _ => none,
    openmeteo := fun _ _ => none, pokeapi := fun _ => none, dogapi := none, catapi := none,
    chucknorris := none, quotes := none, ipinfo := none, dictionary := fun _ => none,
    serp := fun _ _ => none, aiOverview := fun _ => none, pixabay := fun _ => [],
    wiki := fun _ => none, pollinationsText := none, cerebrasText := none }


/-! ## Composition priority order (for the composer claims) -/

/-- The five text sources of the composition chain, in priority order. -/
inductive TextSource where
  | calc | dict | wiki | web | generic
deriving DecidableEq

/-- Priority rank (0 = highest). -/
def srcIdx : TextSource → Nat
  | .calc => 0
  | .dict => 1
  | .wiki => 2
  | .web => 3
  | .generic => 4

/-- Whether a source can produce the primary text for this aggregated
result (the guard of the corresponding `if`/`elif`). -/
def applicableSrc (s : TextSource) (sr : SearchResponse) : Bool :=
  match s with
  | .calc =>
    (match sr.calculator_result with
     | some c => isSuccess c
     | none => false)
  | .dict => sr.dictionary.isSome
  | .wiki => sr.wikipedia_summary.isSome
  | .web => !sr.web_results.isEmpty
  | .generic => true

/-- The highest-priority applicable source. -/
def firstSrc (sr : SearchResponse) : TextSource :=
  if applicableSrc .calc sr then .calc
  else if applicableSrc .dict sr then .dict
  else if applicableSrc .wiki sr then .wiki
  else if applicableSrc .web sr then .web
  else .generic

/-- The text each source renders (junk `""` where inapplicable). -/
def renderSrc (s : TextSource) (sr : SearchResponse) : String :=
  match s with
  | .calc =>
    (match sr.calculator_result with
     | some (.success _ v) => "The answer is " ++ renderF v ++ "."
     | _ => "")
  | .dict =>
    (match sr.dictionary with
     | some d => dictText d
     | none => "")
  | .wiki => sr.wikipedia_summary.getD ""
  | .web =>
    (match sr.web_results with
     | r :: _ => "Based on my search: " ++ r.snippet
     | [] => "")
  | .generic => "I found some information, but let me show you what I discovered."

/-! ## Tag classification for the needs_search flag claim -/

/-- The handler branches that return `needs_search = false` and no search
payload (they all fetched provider data, the flag does not track that). -/
def noSearchTag : HandlerTag → Bool
  | .crypto | .papers | .qa | .weather | .creatureNoSprite
  | .joke | .quoteTag | .ipTag => true
  | _ => false

/-- The handler branches that return `needs_search = true` with an images
payload. -/
def searchTag : HandlerTag → Bool
  | .imageGen | .creatureSprite | .dog | .cat => true
  | _ => false

/-- The property relating a dispatched branch's tag to the flags and
payload of the response it produced. -/
def tagRespOK : HandlerTag × ChatResponse → Prop := fun p =>
  (noSearchTag p.1 = true → p.2.needs_search = false ∧ p.2.search_data = none) ∧
  (searchTag p.1 = true → p.2.needs_search = true ∧
    ∃ sd, p.2.search_data = some sd ∧ sd.images ≠ [])

/-! ## Concrete environments and payloads used by counterexamples and
witnesses -/

/-- A CoinGecko success payload: bitcoin at $50000, +2%. -/
def btcEntry : CryptoEntry := { coin := "bitcoin", usd := some 50000, usd_24h_change := some 2 }

/-- Environment where only the crypto provider succeeds. -/
def envBtc : Env := { envNone with coingecko := fun _ => some [btcEntry] }

/-- Environment where the web-search provider returns two organic results
(regardless of the requested count). -/
def envSerp2 : Env :=
  { envNone with serp := (fun _ _ =>
      some ⟨[⟨some "A", some "a", some "sa", none⟩, ⟨some "B", some "b", some "sb", none⟩],
        none⟩) }

/-- A dictionary payload for "hello". -/
def dHello : DictData :=
  ⟨"hello", "/həˈloʊ/", [⟨"A greeting or expression of goodwill.", "interjection", ""⟩]⟩

/-- Environment where the dictionary provider succeeds. -/
def envHello : Env := { envNone with dictionary := fun _ => some dHello }

/-- Environment where the Pollinations text LLM succeeds with a rephrased
answer and everything else fails. -/
def envCalcLLM : Env :=
  { envNone with pollinationsText := some "Two plus two equals four, my friend!" }

/-- Environment where only the Chuck Norris joke provider succeeds. -/
def envJoke : Env := { envNone with chucknorris := some "funny" }

/-- An aggregated result whose calculator branch failed while the
dictionary branch hit (used to witness the composition priority order). -/
def srDictOnly : SearchResponse :=
  { query := "q", dictionary := some ⟨"word", "", []⟩,
    calculator_result := some (.failure "Invalid expression") }

/-! ## Supporting lemmas -/

theorem length_mkWebResults : ∀ (i : Nat) (l : List OrganicResult),
    (mkWebResults i l).length = l.length := by
  intro i l
  induction l generalizing i with
  | nil => rfl
  | cons r rs ih => simp [mkWebResults, ih]

theorem mem_dropWhile_of_not (p : Char → Bool) (c : Char) (hc : p c = false) :
    ∀ l : List Char, c ∈ l → c ∈ l.dropWhile p := by
  intro l
  induction l with
  | nil => intro h; cases h
  | cons x xs ih =>
    intro hl
    by_cases hx : p x = true
    · rw [List.dropWhile_cons_of_pos hx]
      rcases List.mem_cons.mp hl with h | h
      · exfalso; rw [h] at hc; rw [hc] at hx; cases hx
      · exact ih h
    · rw [List.dropWhile_cons_of_neg hx]
      exact hl

theorem mem_trimCL (c : Char) (hws : isWS c = false) {l : List Char} (h : c ∈ l) :
    c ∈ trimCL l := by
  unfold trimCL
  apply List.mem_reverse.mpr
  apply mem_dropWhile_of_not isWS c hws
  apply List.mem_reverse.mpr
  exact mem_dropWhile_of_not isWS c hws l h

/-! ## Claims -/

/-- C5: for every arithmetic string over the allowed character class that
parses and evaluates, `calculate` returns the numeric value; under the
standard-precedence grammar `calculate "2 + 2 * 5"` yields 12; `"1/0"`
yields the distinct division-by-zero error; the malformed `"2+"` yields the
generic invalid-expression error rather than a crash. -/
theorem calculator_evaluate_spec :
    (∀ (s : String) (t : Expr) (v : Frac),
        is_valid_expression (trimS s) = true →
        parseExpr (trimS s) = .ok t →
        evaluate_node t = .ok v →
        calculate s = .success (trimS s) v) ∧
    calculate "2 + 2 * 5" = .success "2 + 2 * 5" 12 ∧
    errorKind (calculate "1/0") = .divisionByZero ∧
    errorKind (calculate "2+") = .invalidExpression := by
  refine ⟨?_, by decide, by decide, by decide⟩
  intro s t v hv hp he
  unfold calculate
  simp [hv, hp, he]

/-- Witness for C5's universal part at the concrete input "2 + 2 * 5". -/
theorem calculator_evaluate_spec_witness :
    calculate "2 + 2 * 5" = CalcOutcome.success "2 + 2 * 5" 12 :=
  calculator_evaluate_spec.1 "2 + 2 * 5"
    (Expr.binop .add (.num 2) (.binop .mul (.num 2) (.num 5))) 12
    (by decide) rfl rfl

/-- C6 counterexample: the claim's own example `"2^3"` does not pass the
character-class gate - the caret is not in the allow-list - so `evaluate`
rejects it instead of computing the power. -/
theorem caret_power_cex :
    is_valid_expression "2^3" = false ∧
    calculate "2^3" = .failure "Invalid expression" := by decide

/-- C6 amended: no expression containing `^` ever passes the gate (they
all yield the invalid-expression error); the power operator the calculator
actually accepts is Python's `**`, which is inside the character class:
`calculate "2**3"` succeeds with 8. -/
theorem caret_power_amended :
    (∀ s : String, '^' ∈ s.data → calculate s = .failure "Invalid expression") ∧
    calculate "2**3" = .success "2**3" 8 := by
  refine ⟨?_, by decide⟩
  intro s hmem
  have h1 : '^' ∈ (trimS s).data := mem_trimCL '^' (by decide) hmem
  have hall : (trimS s).data.all isCalcChar = false := by
    cases h : (trimS s).data.all isCalcChar
    · rfl
    · exact absurd (List.all_eq_true.mp h '^' h1) (by decide)
  have h2 : is_valid_expression (trimS s) = false := by
    unfold is_valid_expression
    rw [hall]
    simp
  unfold calculate
  simp [h2]

/-- Witness for C6's amended universal at the concrete input "2^3". -/
theorem caret_power_amended_witness :
    calculate "2^3" = CalcOutcome.failure "Invalid expression" :=
  caret_power_amended.1 "2^3" (by decide)

/-- C10: an image-generation trigger whose residual prompt (after
stripping trigger phrases and the `of` pass) is empty still invokes
generation, with the fixed default prompt "a beautiful landscape". -/
theorem imageGen_default_prompt :
    ∀ m : String, pollinationsTriggered m = true → strippedPrompt m = "" →
      handle_pollinations_query m =
        some ("a beautiful landscape", generate_image_url "a beautiful landscape") := by
  intro m ht hs
  unfold handle_pollinations_query
  rw [ht, hs]
  simp

/-- Witness for C10 at the concrete message "draw". -/
theorem imageGen_default_prompt_witness :
    handle_pollinations_query "draw" =
      some ("a beautiful landscape", generate_image_url "a beautiful landscape") :=
  imageGen_default_prompt "draw" (by decide) (by decide)

/-- C7 counterexample: with `num_results = 1`, the returned web-results
list contains every entry the provider sent back (two here), exceeding
`min(limit, 20) = 1` - the cap is not enforced on the response. -/
theorem web_cap_cex :
    ¬ ((search ⟨"x", 1⟩ envSerp2).web_results.length ≤ min 1 20) := by decide

/-- C7 amended: `min(limit, 20)` is only the count passed to the
web-search provider; the returned sequence has exactly as many entries as
the provider returns, with no response-side truncation. -/
theorem web_cap_amended :
    ∀ (q : String) (n : Nat) (env : Env),
      (search ⟨q, n⟩ env).web_results.length =
        (match env.serp q (min n 20) with
         | some sd => sd.organic_results.length
         | none => 0) := by
  intro q n env
  unfold search
  cases h : env.serp q (min n 20) with
  | none => simp [h, mkWebResults]
  | some sd => simp [h, length_mkWebResults]

/-- C4: composing the primary text from an aggregated result picks exactly
one source, the first applicable one in the fixed priority order calculator
success > dictionary > encyclopedia summary > first web snippet > generic
text, regardless of how many are simultaneously populated: every
lower-index source is inapplicable, the chosen source is applicable, and
the composed text is that source's rendering. -/
theorem compose_priority :
    ∀ sr : SearchResponse,
      applicableSrc (firstSrc sr) sr = true ∧
      (∀ s : TextSource, srcIdx s < srcIdx (firstSrc sr) → applicableSrc s sr = false) ∧
      composeText sr = renderSrc (firstSrc sr) sr := by
  intro sr
  obtain ⟨q, ao, wr, im, dic, cr, ws, tr, st⟩ := sr
  rcases cr with _ | (⟨ce, cv⟩ | ⟨cer⟩) <;>
    rcases dic with _ | d <;>
      rcases ws with _ | w <;>
        rcases wr with _ | ⟨r, rs⟩ <;>
          refine ⟨rfl, fun s hs => ?_, rfl⟩ <;>
            cases s <;>
              first
                | rfl
                | norm_num [firstSrc, applicableSrc, srcIdx, isSuccess] at hs

/-- Witness for C4 at a concrete aggregated result whose calculator branch
failed while the dictionary branch hit: the calculator source is ruled
inapplicable and the dictionary produces the text. -/
theorem compose_priority_witness :
    applicableSrc TextSource.calc srDictOnly = false ∧
    composeText srDictOnly = renderSrc TextSource.dict srDictOnly :=
  ⟨(compose_priority srDictOnly).2.1 TextSource.calc (by decide),
   (compose_priority srDictOnly).2.2⟩

/-- C3 counterexample: in the worst case (every branch failing) the
returned result does NOT have the echoed query as its only populated
field - `total_results` (and `search_time`) are set to `some ""` because
the code always applies `str(...)` to the missing metadata. -/
theorem aggregator_cex :
    (search ⟨"history books", 10⟩ envNone).dictionary = none ∧
    (search ⟨"history books", 10⟩ envNone).web_results = [] ∧
    (search ⟨"history books", 10⟩ envNone).calculator_result = none ∧
    (search ⟨"history books", 10⟩ envNone).wikipedia_summary = none ∧
    (search ⟨"history books", 10⟩ envNone).total_results ≠ none := by decide

/-- C3 amended: the aggregator tolerates per-branch failure and is total:
if the web-search branch fails while the dictionary succeeds, the result
has the dictionary populated and an empty web-results list; in the worst
case (every branch failing) every data field is absent except the echoed
query and the two always-present search-metadata strings, which are
empty. -/
theorem aggregator_partial_failure :
    (∀ (q : String) (n : Nat) (env : Env) (w : String) (d : DictData),
        wordsOf q = [w] → env.dictionary w = some d → env.serp q (min n 20) = none →
        (search ⟨q, n⟩ env).dictionary = some d ∧ (search ⟨q, n⟩ env).web_results = []) ∧
    (∀ (q : String) (n : Nat) (env : Env),
        is_valid_expression q = false →
        (∀ w, env.dictionary w = none) →
        (∀ s k, env.serp s k = none) →
        (∀ s, env.aiOverview s = none) →
        (∀ s, env.pixabay s = []) →
        (∀ s, env.wiki s = none) →
        search ⟨q, n⟩ env =
          { query := q, total_results := some "", search_time := some "" }) := by
  constructor
  · intro q n env w d hw hd hs
    constructor
    · show (search ⟨q, n⟩ env).dictionary = some d
      unfold search
      simp [hw, hd]
    · show (search ⟨q, n⟩ env).web_results = []
      unfold search
      simp [hs, mkWebResults]
  · intro q n env hval hdict hserp hai hpix hwiki
    unfold search
    simp [hval, hserp, hai, hpix, hwiki, mkWebResults]
    split <;> simp [hdict]

/-- Witness for C3's amended statement: a dictionary hit with a failed web
branch, and the all-failing worst case. -/
theorem aggregator_partial_failure_witness :
    ((search ⟨"hello", 10⟩ envHello).dictionary = some dHello ∧
      (search ⟨"hello", 10⟩ envHello).web_results = []) ∧
    search ⟨"history books", 10⟩ envNone =
      { query := "history books", total_results := some "", search_time := some "" } :=
  ⟨aggregator_partial_failure.1 "hello" 10 envHello "hello" dHello rfl rfl rfl,
   aggregator_partial_failure.2 "history books" 10 envNone rfl (fun _ => rfl)
     (fun _ _ => rfl) (fun _ => rfl) (fun _ => rfl) (fun _ => rfl)⟩

/-- C1 counterexample: "draw bitcoin weather" matches both the crypto and
weather trigger sets and the crypto provider would return Success, yet the
response is NOT the crypto handler's formatted response - the message also
matches the image-generation trigger "draw", whose binding is registered
first and short-circuits the chain. -/
theorem crypto_before_weather_cex :
    cryptoTriggered "draw bitcoin weather" = true ∧
    weatherTriggered "draw bitcoin weather" = true ∧
    envBtc.coingecko (String.intercalate "," (coinIds "draw bitcoin weather"))
      = some [btcEntry] ∧
    (chat ⟨"draw bitcoin weather", []⟩ envBtc).response ≠ formatCrypto [btcEntry] ∧
    (chat ⟨"draw bitcoin weather", []⟩ envBtc).response =
      "Here\x27s your image: bitcoin weather" := by decide

/-- C1 amended: for every message matching both the crypto and weather
trigger sets but NOT the earlier image-generation trigger set, if the
crypto provider call returns Success then the response is the crypto
handler's formatted response, and the weather binding is never evaluated:
the outcome is identical for every possible weather provider. -/
theorem crypto_before_weather :
    ∀ (m : String) (hist : List (String × String)) (env : Env)
      (prices : List CryptoEntry),
      pollinationsTriggered m = false →
      cryptoTriggered m = true →
      weatherTriggered m = true →
      env.coingecko (String.intercalate "," (coinIds m)) = some prices →
      prices ≠ [] →
      chat ⟨m, hist⟩ env =
        { response := formatCrypto prices, needs_search := false,
          search_data := none, audio_url := none } ∧
      (∀ wf, chat ⟨m, hist⟩ { env with openmeteo := wf } = chat ⟨m, hist⟩ env) := by
  intro m hist env prices hP hC _hW hG hne
  have hp : handle_pollinations_query m = none := by
    simp [handle_pollinations_query, hP]
  have hemp : prices.isEmpty = false := by
    cases prices
    · exact absurd rfl hne
    · rfl
  have hkey : ∀ e : Env, e.coingecko = env.coingecko →
      chat ⟨m, hist⟩ e =
        { response := formatCrypto prices, needs_search := false,
          search_data := none, audio_url := none } := by
    intro e he
    have hc : handle_crypto_query m e = some prices := by
      unfold handle_crypto_query
      rw [hC, he, hG]
      simp [hemp]
    show chat ⟨m, hist⟩ e = _
    unfold chat dispatchChain
    simp only [hp, hc]
  exact ⟨hkey env rfl,
    fun wf => by rw [hkey { env with openmeteo := wf } rfl, hkey env rfl]⟩

/-- Witness for C1's amended statement at the message "bitcoin weather"
(crypto and weather triggers, no image-generation trigger). -/
theorem crypto_before_weather_witness :
    chat ⟨"bitcoin weather", []⟩ envBtc =
      { response := formatCrypto [btcEntry], needs_search := false,
        search_data := none, audio_url := none } :=
  (crypto_before_weather "bitcoin weather" [] envBtc [btcEntry]
    (by decide) (by decide) (by decide) rfl (by decide)).1

/-- C2 counterexample: on input "hello" with empty history the chat
endpoint does not return the canned greeting - "hello" is a single token
longer than 3 characters, so it is routed down the search path (dictionary
lookup); moreover the language model IS consulted: its output becomes the
response when the dictionary misses. -/
theorem hello_cex :
    (chat ⟨"hello", []⟩ envHello).response ≠
      "Hello! I\x27m Gerch, your AI-powered search assistant. How can I help you today?" ∧
    (chat ⟨"hello", []⟩ envHello).needs_search = true ∧
    (chat ⟨"hello", []⟩ { envNone with pollinationsText := some "LLM reply" }).response
      = "LLM reply" := by decide

/-- C2 amended: "hello" (a single token longer than 3 characters) is
classified needs-data and follows the aggregated-search path for every
provider environment; the fixed greeting string is produced by the
rule-based fallback, which runs only AFTER both language-model backends
fail, not before any delegation. -/
theorem hello_routed_to_search :
    (∀ env : Env,
        (chat ⟨"hello", []⟩ env).needs_search = true ∧
        (chat ⟨"hello", []⟩ env).search_data = some (search ⟨"hello", 10⟩ env)) ∧
    (∀ env : Env, env.pollinationsText = none → env.cerebrasText = none →
        generate_enhanced_response "hello" [] none env =
          "Hello! I\x27m Gerch, your AI-powered search assistant. How can I help you today?") := by
  constructor
  · intro env
    exact ⟨rfl, rfl⟩
  · intro env h1 h2
    unfold generate_enhanced_response
    rw [h1, h2]
    rfl

/-- Witness for C2's amended statement at the all-failing environment. -/
theorem hello_routed_to_search_witness :
    (chat ⟨"hello", []⟩ envNone).needs_search = true ∧
    generate_enhanced_response "hello" [] none envNone =
      "Hello! I\x27m Gerch, your AI-powered search assistant. How can I help you today?" :=
  ⟨(hello_routed_to_search.1 envNone).1, hello_routed_to_search.2 envNone rfl rfl⟩

/-- C8 (code bug): for the message "2+2" the calculator succeeds (result
4), yet the chat response is the language model's rephrasing rather than
the deterministic "The answer is 4." - the enrichment guard reads
`calculator_result and not ...get("success")`, skipping enrichment only
for FAILED calculator results, contradicting its own inline comment "Keep
simple response for calculator"; and when every language model fails, the
already-chosen text is replaced by the canned fallback string rather than
kept, because `generate_enhanced_response` returns the fallback instead of
failing. -/
theorem calc_enrichment_overwrites :
    (search ⟨"2+2", 10⟩ envCalcLLM).calculator_result = some (.success "2+2" 4) ∧
    (chat ⟨"2+2", []⟩ envCalcLLM).response = "Two plus two equals four, my friend!" ∧
    (chat ⟨"2+2", []⟩ envCalcLLM).response ≠ "The answer is 4." ∧
    (chat ⟨"2+2", []⟩ envNone).response =
      "I understand your message. I\x27m here to help! Could you please provide more details or ask a specific question?" := by decide

/-- C9: the needs_search flag tracks branch identity, not data fetching:
every crypto / papers / Q&A / weather / spriteless-creature / joke / quote
/ IP response has `needs_search = false` and no search payload, while the
image-generation, creature-with-sprite and pet (dog/cat) responses have
`needs_search = true` with a non-empty images payload. -/
theorem needs_search_flag_by_tag :
    ∀ (m : String) (env : Env) (p : HandlerTag × ChatResponse),
      dispatchChain m env = some p → tagRespOK p := by
  intro m env p h
  unfold dispatchChain at h
  repeat' split at h
  all_goals first
    | exact Option.noConfusion h
    | (injection h with h'
       subst h'
       exact ⟨fun hn => Bool.noConfusion hn, fun _ => ⟨rfl, _, rfl, by simp⟩⟩)
    | (injection h with h'
       subst h'
       exact ⟨fun _ => ⟨rfl, rfl⟩, fun hs => Bool.noConfusion hs⟩)

/-- Witness for C9 at the joke branch ("chuck norris joke" with a
successful joke provider). -/
theorem needs_search_flag_by_tag_witness :
    tagRespOK (HandlerTag.joke,
      { response := "😄 funny", needs_search := false,
        search_data := none, audio_url := none }) :=
  needs_search_flag_by_tag "chuck norris joke" envJoke _ rfl
